import Mathlib

/-!
Verification development for the AI-BOS penalty calculation engine.

The definitions below are a shallow embedding of the Python sources:
`settings.py` (rule configuration), `penalty_rules.py` (tiered penalty
calculator and rule validation), `decision_engine.py` (bounded decision
log), `ai_client.py` (explanation generation with fallback),
`send_notice.py` / `email.py` / `sms.py` (notice dispatch over two
independent channels).

Modelling conventions:
* Python `Decimal` values are modelled as exact rationals `ℚ`;
  `Decimal.quantize(Decimal('0.01'), ROUND_HALF_UP)` is `roundHalfUp2`,
  and `quantize(Decimal('0.01'))` (the context default, half-even) is
  `roundHalfEven2`.  All currency amounts arising from the default
  configuration are exact multiples of one cent, so `float(...)`
  conversions in the source are exact and equality over `ℚ` coincides
  with the source's equality of values.
* Python dicts with a fixed shape become structures; keys that a tier's
  result dict omits become `none` of an `Option` field.
* `int(x)` on a validated numeric delay is `truncateToInt` (truncation
  toward zero); non-numeric inputs are excluded by typing.
* Raising `ValueError` in `calculate` is the `Except.error` branch.
-/

/-- `Settings.PENALTY_THRESHOLDS` (settings.py): tier boundary minutes. -/
structure PenaltyThresholds where
  no_penalty_max : Int
  low_penalty_min : Int
  low_penalty_max : Int
  high_penalty_min : Int
deriving DecidableEq, Repr

/-- `Settings.PENALTY_AMOUNTS` (settings.py): currency amounts. -/
structure PenaltyAmounts where
  fixed_penalty : ℚ
  variable_rate : ℚ
  high_penalty_base : ℚ
deriving DecidableEq, Repr

/-- The pair returned by `Settings.get_penalty_config`. -/
structure PenaltyConfig where
  thresholds : PenaltyThresholds
  amounts : PenaltyAmounts
deriving DecidableEq, Repr

/-- Default thresholds from `settings.py`. -/
def PENALTY_THRESHOLDS : PenaltyThresholds :=
  { no_penalty_max := 30, low_penalty_min := 31, low_penalty_max := 60, high_penalty_min := 61 }

/-- Default amounts from `settings.py`. -/
def PENALTY_AMOUNTS : PenaltyAmounts :=
  { fixed_penalty := 500, variable_rate := 25, high_penalty_base := 1000 }

/-- `Settings.get_penalty_config()`, evaluated on the default settings. -/
def get_penalty_config : PenaltyConfig :=
  { thresholds := PENALTY_THRESHOLDS, amounts := PENALTY_AMOUNTS }

/-- Rounding of `x` to an integer, ties to even: the rounding used by
`Decimal.quantize` under Python's default context (`ROUND_HALF_EVEN`). -/
def rintHalfEven (x : ℚ) : Int :=
  let n := ⌊x⌋
  if x - n < 1/2 then n
  else if 1/2 < x - n then n + 1
  else if n % 2 = 0 then n else n + 1

/-- `d.quantize(Decimal('0.01'), rounding=ROUND_HALF_UP)`: round to two
decimal places, ties away from zero. -/
def roundHalfUp2 (q : ℚ) : ℚ :=
  if 0 ≤ q then (⌊q * 100 + 1/2⌋ : ℚ) / 100
  else -((⌊-q * 100 + 1/2⌋ : ℚ) / 100)

/-- `d.quantize(Decimal('0.01'))`: round to two decimal places with the
context default rounding (half-even). -/
def roundHalfEven2 (q : ℚ) : ℚ := (rintHalfEven (q * 100) : ℚ) / 100

/-- Python `int(x)` on a float/rational: truncation toward zero. -/
def truncateToInt (q : ℚ) : Int := if 0 ≤ q then ⌊q⌋ else -⌊-q⌋

/-- The `calculation_breakdown` dict of a `CalculationResult`; the
progressive tier adds the `per_minute_rate` and `overage_minutes` keys,
absent keys are `none`. -/
structure CalculationBreakdown where
  base_amount : ℚ
  variable_amount : ℚ
  per_minute_rate : Option ℚ
  overage_minutes : Option Int
  total : ℚ
deriving DecidableEq, Repr

/-- The result dict built by the three `_apply_*_rule` methods of
`PenaltyCalculator` (penalty_rules.py).  Keys that only some tiers
emit (`exceeded_by_minutes`, `critical_delay`) are `Option`s; the
presentational `rule_description` string is not modelled. -/
structure CalculationResult where
  delay_minutes : Int
  penalty_applied : Bool
  penalty_amount : ℚ
  rule_applied : String
  calculation_breakdown : CalculationBreakdown
  service_type : String
  threshold_exceeded : Bool
  exceeded_by_minutes : Option Int
  critical_delay : Option Bool
deriving DecidableEq, Repr

/-- `PenaltyCalculator._apply_no_penalty_rule` (penalty_rules.py lines 52-72). -/
def apply_no_penalty_rule (_cfg : PenaltyConfig) (delay_minutes : Int)
    (service_type : String) : CalculationResult :=
  { delay_minutes := delay_minutes
    penalty_applied := false
    penalty_amount := 0
    rule_applied := "no_penalty_threshold"
    calculation_breakdown :=
      { base_amount := 0, variable_amount := 0, per_minute_rate := none,
        overage_minutes := none, total := 0 }
    service_type := service_type
    threshold_exceeded := false
    exceeded_by_minutes := none
    critical_delay := none }

/-- `PenaltyCalculator._apply_low_penalty_rule` (penalty_rules.py lines 74-95).
The `penalty_amount` key is quantized half-up; the breakdown stores the
unquantized amount. -/
def apply_low_penalty_rule (cfg : PenaltyConfig) (delay_minutes : Int)
    (service_type : String) : CalculationResult :=
  let penalty_amount := cfg.amounts.fixed_penalty
  { delay_minutes := delay_minutes
    penalty_applied := true
    penalty_amount := roundHalfUp2 penalty_amount
    rule_applied := "fixed_penalty_rule"
    calculation_breakdown :=
      { base_amount := penalty_amount, variable_amount := 0, per_minute_rate := none,
        overage_minutes := none, total := penalty_amount }
    service_type := service_type
    threshold_exceeded := true
    exceeded_by_minutes := some (delay_minutes - cfg.thresholds.no_penalty_max)
    critical_delay := none }

/-- `PenaltyCalculator._apply_high_penalty_rule` (penalty_rules.py lines
97-132).  `penalty_amount` is quantized `ROUND_HALF_UP`; the breakdown's
`variable_amount` and `total` use `quantize(Decimal('0.01'))`, i.e. the
context default half-even rounding. -/
def apply_high_penalty_rule (cfg : PenaltyConfig) (delay_minutes : Int)
    (service_type : String) : CalculationResult :=
  let overage_minutes := delay_minutes - cfg.thresholds.low_penalty_max
  let base_amount := cfg.amounts.high_penalty_base
  let variable_rate := cfg.amounts.variable_rate
  let variable_amount := variable_rate * (overage_minutes : ℚ)
  let total_amount := base_amount + variable_amount
  { delay_minutes := delay_minutes
    penalty_applied := true
    penalty_amount := roundHalfUp2 total_amount
    rule_applied := "progressive_penalty_rule"
    calculation_breakdown :=
      { base_amount := base_amount
        variable_amount := roundHalfEven2 variable_amount
        per_minute_rate := some variable_rate
        overage_minutes := some overage_minutes
        total := roundHalfEven2 total_amount }
    service_type := service_type
    threshold_exceeded := true
    exceeded_by_minutes := some (delay_minutes - cfg.thresholds.no_penalty_max)
    critical_delay := some (decide (120 < delay_minutes)) }

/-- `PenaltyCalculator.calculate` (penalty_rules.py lines 22-50): validate
the numeric delay (negative values raise `ValueError`), truncate it with
`int(...)`, then dispatch on the thresholds of the loaded config. -/
def calculate (cfg : PenaltyConfig) (delay : ℚ)
    (service_type : String) : Except String CalculationResult :=
  if delay < 0 then .error "Invalid delay minutes"
  else
    let delay_minutes := truncateToInt delay
    if delay_minutes ≤ cfg.thresholds.no_penalty_max then
      .ok (apply_no_penalty_rule cfg delay_minutes service_type)
    else if delay_minutes ≤ cfg.thresholds.low_penalty_max then
      .ok (apply_low_penalty_rule cfg delay_minutes service_type)
    else
      .ok (apply_high_penalty_rule cfg delay_minutes service_type)

/-- `DecisionEngine._log_decision` (decision_engine.py lines 109-125):
append the entry, then keep only the last 1000 entries
(`self.decision_logs = self.decision_logs[-1000:]`).  The log entry
itself (a dict of timestamp, context, response, version) is opaque
append-only data, so it is abstracted to an arbitrary type. -/
def log_decision {α : Type} (decision_logs : List α) (entry : α) : List α :=
  if 1000 < (decision_logs ++ [entry]).length then
    (decision_logs ++ [entry]).drop ((decision_logs ++ [entry]).length - 1000)
  else decision_logs ++ [entry]

/-- The decision log obtained by starting from the empty log of
`DecisionEngine.__init__` and appending `n` pairwise-distinct entries,
identified by their sequence number. -/
def decision_logs_after (n : Nat) : List Nat :=
  List.foldl log_decision [] (List.range n)

/-- The explanation record returned by `AIClient.generate_explanation`
(ai_client.py lines 19-47): the success dict carries confidence 0.95 and
a token estimate, the fallback dict carries confidence 0.0 and the error
text.  The `generated_at` timestamp is not modelled. -/
structure ExplanationRecord where
  explanation : String
  confidence_score : ℚ
  model_used : String
  tokens_used : Option ℚ
  error : Option String
deriving DecidableEq, Repr

/-- `AIClient.generate_explanation` (ai_client.py lines 19-47).  The inner
`_simulate_ai_response` call is nondeterministic (`random.choice`) and
may raise, so it is abstracted by its outcome `sim`: `.ok text` when the
simulated generation returns `text`, `.error e` when it raises an
exception with message `e`.  The `try`/`except` of the source is the
match: a failure is converted to the fallback record and never
re-raised, which is why the return type is a plain record rather than
`Except`.  `tokens_used` models `len(explanation.split()) // 0.75`. -/
def generate_explanation (model : String) (sim : Except String String) : ExplanationRecord :=
  match sim with
  | .ok text =>
      { explanation := text
        confidence_score := 95/100
        model_used := model
        tokens_used :=
          some ((⌊(((text.splitOn " ").filter (fun w => w ≠ "")).length : ℚ) / (3/4)⌋ : Int) : ℚ)
        error := none }
  | .error e =>
      { explanation := "Unable to generate AI explanation at this time."
        confidence_score := 0
        model_used := model
        tokens_used := none
        error := some e }

/-- `EmailService` state (email.py): the enabled toggle and the send
history (receiver and subject of each simulated send). -/
structure EmailService where
  enabled : Bool
  sent_emails : List (String × String)
deriving DecidableEq, Repr

/-- `SMSService` state (sms.py): the enabled toggle and the send history
(receiver and delivered message of each simulated send). -/
structure SMSService where
  enabled : Bool
  sent_sms : List (String × String)
deriving DecidableEq, Repr

/-- The `{success, error?}` part of a transport `send_notice` result
(timestamps and message ids are not modelled). -/
structure SendOutcome where
  success : Bool
  error : Option String
deriving DecidableEq, Repr

/-- `EmailService.send_notice` (email.py lines 23-76): fails when the
service is disabled or the address lacks an `@` or a `.`; on success the
email is recorded in the send history. -/
def email_send_notice (svc : EmailService) (to_email subject _body : String) :
    SendOutcome × EmailService :=
  if svc.enabled = false then
    ({ success := false, error := some "Email service is disabled" }, svc)
  else if to_email.data.contains '@' = false ∨ to_email.data.contains '.' = false then
    ({ success := false, error := some "Invalid email address" }, svc)
  else
    ({ success := true, error := none },
     { svc with sent_emails := svc.sent_emails ++ [(to_email, subject)] })

/-- `SMSService.send_notice` (sms.py lines 23-81): fails when the service
is disabled or the phone number is shorter than 10 characters (which also
covers the empty string); messages over 160 characters are truncated to
157 plus an ellipsis; on success the SMS is recorded. -/
def sms_send_notice (svc : SMSService) (to_phone message : String) :
    SendOutcome × SMSService :=
  if svc.enabled = false then
    ({ success := false, error := some "SMS service is disabled" }, svc)
  else if to_phone.length < 10 then
    ({ success := false, error := some "Invalid phone number" }, svc)
  else
    ({ success := true, error := none },
     { svc with sent_sms := svc.sent_sms ++
        [(to_phone, if 160 < message.length then message.take 157 ++ "..." else message)] })

/-- Recipient info dict of `send_penalty_notice`; absent keys are `none`.
An empty string is falsy in the Python guard, so it is kept distinct from
an absent key. -/
structure Recipient where
  name : Option String
  email : Option String
  phone : Option String
deriving DecidableEq, Repr

/-- Channel-specific content built by `NoticeSender._prepare_notice_content`
(send_notice.py lines 98-165).  The rendered text (currency formatting,
HTML body) is presentational; the branching on `penalty_amount > 0` is
kept, and the interpolated numbers are rendered with `toString`. -/
structure NoticeContent where
  email_subject : String
  email_body : String
  sms_message : String
deriving DecidableEq, Repr

/-- `NoticeSender._prepare_notice_content` (send_notice.py lines 98-165). -/
def prepare_notice_content (delay_minutes : Int) (penalty_amount : ℚ)
    (recipient : Recipient) : NoticeContent :=
  { email_subject :=
      if 0 < penalty_amount then
        "Penalty Notice: " ++ toString penalty_amount ++ " for " ++
          toString delay_minutes ++ "min Delay"
      else
        "Delay Notification: " ++ toString delay_minutes ++ "min Delay - No Penalty"
    email_body :=
      "AI-BOS Notification for " ++ recipient.name.getD "Valued Partner"
    sms_message :=
      if 0 < penalty_amount then
        "AI-BOS: " ++ toString delay_minutes ++ "min delay. Penalty: " ++
          toString penalty_amount ++ ". Check email for details."
      else
        "AI-BOS: " ++ toString delay_minutes ++
          "min delay recorded. No penalty applied. Details in email." }

/-- One transport-collaborator call made during a dispatch, used to
instrument which `send_notice` invocations occur. -/
inductive TransportCall where
  | email (dest : String)
  | sms (dest : String)
deriving DecidableEq, Repr

/-- The `notifications` dict tracked by `send_penalty_notice`. -/
structure NotificationsSent where
  email : Bool
  sms : Bool
deriving DecidableEq, Repr

/-- The dispatch result of `send_penalty_notice` (notice id and content
preview are presentational and not modelled). -/
structure NoticeResult where
  status : String
  notifications : NotificationsSent
deriving DecidableEq, Repr

/-- `NoticeSender.send_penalty_notice` (send_notice.py lines 23-96): the
email channel is attempted only when `recipient.email` is truthy and the
email service reports enabled, the SMS channel only under the analogous
condition for `recipient.phone`; the two guards are sequential and
independent.  Besides the result and the updated transport states, the
embedding returns the ordered list of transport calls made.  The audit
`notification_log` append and the `except` fallback (nothing in the
modelled body can raise) are not modelled. -/
def send_penalty_notice (es : EmailService) (ss : SMSService)
    (calculation_result : CalculationResult) (recipient : Recipient) :
    NoticeResult × EmailService × SMSService × List TransportCall :=
  let content := prepare_notice_content calculation_result.delay_minutes
    calculation_result.penalty_amount recipient
  let emailStep : Bool × EmailService × List TransportCall :=
    match recipient.email with
    | some addr =>
        if addr ≠ "" ∧ es.enabled = true then
          let r := email_send_notice es addr content.email_subject content.email_body
          (r.1.success, r.2, [TransportCall.email addr])
        else (false, es, [])
    | none => (false, es, [])
  let smsStep : Bool × SMSService × List TransportCall :=
    match recipient.phone with
    | some ph =>
        if ph ≠ "" ∧ ss.enabled = true then
          let r := sms_send_notice ss ph content.sms_message
          (r.1.success, r.2, [TransportCall.sms ph])
        else (false, ss, [])
    | none => (false, ss, [])
  ({ status := "sent",
     notifications := { email := emailStep.1, sms := smsStep.1 } },
   emailStep.2.1, smsStep.2.1, emailStep.2.2 ++ smsStep.2.2)

/-- Whether a trace contains an SMS transport call. -/
def hasSMSCall (trace : List TransportCall) : Bool :=
  trace.any fun c => match c with | .sms _ => true | .email _ => false

/-- Whether a trace contains an email transport call. -/
def hasEmailCall (trace : List TransportCall) : Bool :=
  trace.any fun c => match c with | .sms _ => false | .email _ => true

/-- The `{rules_valid, issues}` part of the dict returned by
`PenaltyCalculator.validate_rules`; the `threshold_checks` and
`amount_checks` reporting maps echo inputs and are not modelled. -/
structure ValidationResult where
  rules_valid : Bool
  issues : List String
deriving DecidableEq, Repr

/-- One iteration of the threshold loop of `validate_rules`
(penalty_rules.py lines 151-158): a negative threshold adds an issue and
clears `rules_valid`. -/
def check_threshold (acc : ValidationResult) (nv : String × Int) : ValidationResult :=
  if nv.2 < 0 then
    { rules_valid := false, issues := acc.issues ++ ["Negative threshold: " ++ nv.1] }
  else acc

/-- `PenaltyCalculator.validate_rules` (penalty_rules.py lines 134-175):
checks the four thresholds for negativity and `fixed_penalty` and
`variable_rate` for positivity.  `high_penalty_base` is only echoed in
the `amount_checks` report; the code never validates it.  The function
reads the config and builds a fresh result dict: it neither raises nor
mutates the config (in the embedding it is a pure function of `cfg`). -/
def validate_rules (cfg : PenaltyConfig) : ValidationResult :=
  let r1 := List.foldl check_threshold { rules_valid := true, issues := [] }
    [("no_penalty_max", cfg.thresholds.no_penalty_max),
     ("low_penalty_min", cfg.thresholds.low_penalty_min),
     ("low_penalty_max", cfg.thresholds.low_penalty_max),
     ("high_penalty_min", cfg.thresholds.high_penalty_min)]
  let r2 := if cfg.amounts.fixed_penalty ≤ 0 then
      { rules_valid := false, issues := r1.issues ++ ["Fixed penalty must be positive"] }
    else r1
  if cfg.amounts.variable_rate ≤ 0 then
    { rules_valid := false, issues := r2.issues ++ ["Variable rate must be positive"] }
  else r2

/-- A config that is inconsistent in the spec's sense — its
`high_penalty_base` is negative — but that `validate_rules` accepts. -/
def config_negative_base : PenaltyConfig :=
  { thresholds := PENALTY_THRESHOLDS,
    amounts := { fixed_penalty := 500, variable_rate := 25, high_penalty_base := -1000 } }

lemma truncateToInt_intCast (d : Int) : truncateToInt (d : ℚ) = d := by
  unfold truncateToInt
  split
  · exact Int.floor_intCast d
  · rw [← Int.cast_neg, Int.floor_intCast]; ring

lemma rintHalfEven_intCast (m : Int) : rintHalfEven (m : ℚ) = m := by
  unfold rintHalfEven
  rw [Int.floor_intCast]
  norm_num

lemma roundHalfEven2_intCast (n : Int) : roundHalfEven2 (n : ℚ) = n := by
  unfold roundHalfEven2
  have h : (n : ℚ) * 100 = ((n * 100 : Int) : ℚ) := by push_cast; ring
  rw [h, rintHalfEven_intCast]
  push_cast
  field_simp

lemma roundHalfUp2_intCast (n : Int) : roundHalfUp2 (n : ℚ) = n := by
  unfold roundHalfUp2
  have h1 : (n : ℚ) * 100 + 1/2 = ((n * 100 : Int) : ℚ) + 1/2 := by push_cast; ring
  have h2 : -(n : ℚ) * 100 + 1/2 = ((-(n * 100) : Int) : ℚ) + 1/2 := by push_cast; ring
  have hf : ∀ m : Int, ⌊(m : ℚ) + 1/2⌋ = m := by
    intro m
    rw [Int.floor_eq_iff]
    norm_num
  split
  · rw [h1, hf]
    push_cast
    field_simp
  · rw [h2, hf]
    push_cast
    field_simp

/-- `calculate` on an integral, non-negative delay: the validation guard
passes and truncation is the identity, leaving the three-way dispatch. -/
lemma calculate_intCast_nonneg (cfg : PenaltyConfig) (d : Int) (st : String)
    (h0 : 0 ≤ d) :
    calculate cfg (d : ℚ) st =
      if d ≤ cfg.thresholds.no_penalty_max then
        .ok (apply_no_penalty_rule cfg d st)
      else if d ≤ cfg.thresholds.low_penalty_max then
        .ok (apply_low_penalty_rule cfg d st)
      else
        .ok (apply_high_penalty_rule cfg d st) := by
  unfold calculate
  have hneg : ¬ ((d : ℚ) < 0) := by
    rw [not_lt]
    exact_mod_cast h0
  rw [if_neg hneg, truncateToInt_intCast]

/-- Half-up rounding to cents fixes any integral rational. -/
lemma roundHalfUp2_eq_self (q : ℚ) (n : Int) (h : q = (n : ℚ)) :
    roundHalfUp2 q = q := by
  rw [h, roundHalfUp2_intCast]

/-- Half-even rounding to cents fixes any integral rational. -/
lemma roundHalfEven2_eq_self (q : ℚ) (n : Int) (h : q = (n : ℚ)) :
    roundHalfEven2 q = q := by
  rw [h, roundHalfEven2_intCast]

/-- Dispatch lemma: a delay in the no-penalty tier takes the first branch. -/
lemma calculate_no_penalty_tier (cfg : PenaltyConfig) (d : Int) (st : String)
    (h0 : 0 ≤ d) (h1 : d ≤ cfg.thresholds.no_penalty_max) :
    calculate cfg (d : ℚ) st = .ok (apply_no_penalty_rule cfg d st) := by
  rw [calculate_intCast_nonneg cfg d st h0, if_pos h1]

/-- Dispatch lemma: a delay in the fixed-penalty tier takes the second branch. -/
lemma calculate_low_tier (cfg : PenaltyConfig) (d : Int) (st : String)
    (h0 : 0 ≤ d) (h1 : cfg.thresholds.no_penalty_max < d)
    (h2 : d ≤ cfg.thresholds.low_penalty_max) :
    calculate cfg (d : ℚ) st = .ok (apply_low_penalty_rule cfg d st) := by
  rw [calculate_intCast_nonneg cfg d st h0, if_neg (not_le.2 h1), if_pos h2]

/-- Dispatch lemma: a delay above both thresholds takes the progressive branch. -/
lemma calculate_high_tier (cfg : PenaltyConfig) (d : Int) (st : String)
    (h0 : 0 ≤ d) (h1 : cfg.thresholds.no_penalty_max < d)
    (h2 : cfg.thresholds.low_penalty_max < d) :
    calculate cfg (d : ℚ) st = .ok (apply_high_penalty_rule cfg d st) := by
  rw [calculate_intCast_nonneg cfg d st h0, if_neg (not_le.2 h1), if_neg (not_le.2 h2)]

/-- C1: for every delay above `low_penalty_max` (under thresholds with
`no_penalty_max ≤ low_penalty_max`), `calculate` applies the progressive
rule with `penalty_amount` equal to
`high_penalty_base + variable_rate * (delay - low_penalty_max)` rounded
half-up to cents and breakdown `overage_minutes = delay - low_penalty_max`;
under the default config `calculate(75)` yields `overage_minutes = 15`,
`variable_amount = 375.00`, `total = 1375.00` and `penalty_amount = 1375.00`. -/
theorem C1_progressive_tier (cfg : PenaltyConfig) (d : Int) (st : String)
    (h0 : 0 ≤ d)
    (hmono : cfg.thresholds.no_penalty_max ≤ cfg.thresholds.low_penalty_max)
    (hd : cfg.thresholds.low_penalty_max < d) :
    calculate cfg (d : ℚ) st = .ok (apply_high_penalty_rule cfg d st) ∧
    (apply_high_penalty_rule cfg d st).rule_applied = "progressive_penalty_rule" ∧
    (apply_high_penalty_rule cfg d st).penalty_amount =
      roundHalfUp2 (cfg.amounts.high_penalty_base +
        cfg.amounts.variable_rate * ((d - cfg.thresholds.low_penalty_max : Int) : ℚ)) ∧
    (apply_high_penalty_rule cfg d st).calculation_breakdown.overage_minutes =
      some (d - cfg.thresholds.low_penalty_max) ∧
    calculate get_penalty_config ((75 : Int) : ℚ) "standard" =
      .ok (apply_high_penalty_rule get_penalty_config 75 "standard") ∧
    (apply_high_penalty_rule get_penalty_config 75 "standard").calculation_breakdown.overage_minutes = some 15 ∧
    (apply_high_penalty_rule get_penalty_config 75 "standard").calculation_breakdown.variable_amount = 375 ∧
    (apply_high_penalty_rule get_penalty_config 75 "standard").calculation_breakdown.total = 1375 ∧
    (apply_high_penalty_rule get_penalty_config 75 "standard").penalty_amount = 1375 := by
  refine ⟨calculate_high_tier cfg d st h0 (lt_of_le_of_lt hmono hd) hd, rfl, rfl, rfl,
    calculate_high_tier get_penalty_config 75 "standard" (by norm_num)
      (by norm_num [get_penalty_config, PENALTY_THRESHOLDS])
      (by norm_num [get_penalty_config, PENALTY_THRESHOLDS]), rfl, ?_, ?_, ?_⟩
  · show roundHalfEven2 _ = _
    norm_num [get_penalty_config, PENALTY_AMOUNTS, PENALTY_THRESHOLDS]
    rw [roundHalfEven2_eq_self _ 375 (by norm_num)]
  · show roundHalfEven2 _ = _
    norm_num [get_penalty_config, PENALTY_AMOUNTS, PENALTY_THRESHOLDS]
    rw [roundHalfEven2_eq_self _ 1375 (by norm_num)]
  · show roundHalfUp2 _ = _
    norm_num [get_penalty_config, PENALTY_AMOUNTS, PENALTY_THRESHOLDS]
    rw [roundHalfUp2_eq_self _ 1375 (by norm_num)]

/-- C1 witness: the progressive-tier theorem applied at the default config
and a delay of 75 minutes. -/
theorem C1_progressive_tier_witness :
    (0 ≤ (75 : Int) ∧
      get_penalty_config.thresholds.no_penalty_max ≤ get_penalty_config.thresholds.low_penalty_max ∧
      get_penalty_config.thresholds.low_penalty_max < (75 : Int)) ∧
    ((apply_high_penalty_rule get_penalty_config 75 "standard").rule_applied =
      "progressive_penalty_rule" ∧
     (apply_high_penalty_rule get_penalty_config 75 "standard").penalty_amount = 1375) := by
  refine ⟨⟨by decide, by decide, by decide⟩, ?_, ?_⟩
  · exact (C1_progressive_tier get_penalty_config 75 "standard" (by decide) (by decide) (by decide)).2.1
  · exact (C1_progressive_tier get_penalty_config 75 "standard" (by decide) (by decide) (by decide)).2.2.2.2.2.2.2.2

/-- C2: for every delay in `[0, no_penalty_max]`, `calculate` returns
`penalty_applied = false`, `penalty_amount = 0.00`,
`rule_applied = "no_penalty_threshold"` and an all-zero breakdown; in
particular `calculate(15)` under the default config. -/
theorem C2_no_penalty_tier (cfg : PenaltyConfig) (d : Int) (st : String)
    (h0 : 0 ≤ d) (h1 : d ≤ cfg.thresholds.no_penalty_max) :
    calculate cfg (d : ℚ) st = .ok (apply_no_penalty_rule cfg d st) ∧
    (apply_no_penalty_rule cfg d st).penalty_applied = false ∧
    (apply_no_penalty_rule cfg d st).penalty_amount = 0 ∧
    (apply_no_penalty_rule cfg d st).rule_applied = "no_penalty_threshold" ∧
    (apply_no_penalty_rule cfg d st).calculation_breakdown =
      { base_amount := 0, variable_amount := 0, per_minute_rate := none,
        overage_minutes := none, total := 0 } ∧
    calculate get_penalty_config ((15 : Int) : ℚ) "standard" =
      .ok (apply_no_penalty_rule get_penalty_config 15 "standard") := by
  exact ⟨calculate_no_penalty_tier cfg d st h0 h1, rfl, rfl, rfl, rfl,
    calculate_no_penalty_tier get_penalty_config 15 "standard" (by decide) (by decide)⟩

/-- C2 witness: the no-penalty theorem applied at the default config and a
delay of 15 minutes. -/
theorem C2_no_penalty_tier_witness :
    (0 ≤ (15 : Int) ∧ (15 : Int) ≤ get_penalty_config.thresholds.no_penalty_max) ∧
    ((apply_no_penalty_rule get_penalty_config 15 "standard").penalty_applied = false ∧
     (apply_no_penalty_rule get_penalty_config 15 "standard").penalty_amount = 0 ∧
     (apply_no_penalty_rule get_penalty_config 15 "standard").rule_applied =
       "no_penalty_threshold") := by
  refine ⟨⟨by decide, by decide⟩, ?_, ?_, ?_⟩
  · exact (C2_no_penalty_tier get_penalty_config 15 "standard" (by decide) (by decide)).2.1
  · exact (C2_no_penalty_tier get_penalty_config 15 "standard" (by decide) (by decide)).2.2.1
  · exact (C2_no_penalty_tier get_penalty_config 15 "standard" (by decide) (by decide)).2.2.2.1

/-- C3: for every delay in `(no_penalty_max, low_penalty_max]`,
`calculate` applies the fixed-penalty rule: `penalty_amount` is
`fixed_penalty` rounded half-up to cents, `rule_applied` is
`"fixed_penalty_rule"`, and `exceeded_by_minutes = delay - no_penalty_max`;
under the default config `calculate(45)` gives `penalty_amount = 500.00`
and `exceeded_by_minutes = 15`. -/
theorem C3_fixed_tier (cfg : PenaltyConfig) (d : Int) (st : String)
    (h0 : 0 ≤ d) (h1 : cfg.thresholds.no_penalty_max < d)
    (h2 : d ≤ cfg.thresholds.low_penalty_max) :
    calculate cfg (d : ℚ) st = .ok (apply_low_penalty_rule cfg d st) ∧
    (apply_low_penalty_rule cfg d st).penalty_amount =
      roundHalfUp2 cfg.amounts.fixed_penalty ∧
    (apply_low_penalty_rule cfg d st).rule_applied = "fixed_penalty_rule" ∧
    (apply_low_penalty_rule cfg d st).exceeded_by_minutes =
      some (d - cfg.thresholds.no_penalty_max) ∧
    calculate get_penalty_config ((45 : Int) : ℚ) "standard" =
      .ok (apply_low_penalty_rule get_penalty_config 45 "standard") ∧
    (apply_low_penalty_rule get_penalty_config 45 "standard").penalty_amount = 500 ∧
    (apply_low_penalty_rule get_penalty_config 45 "standard").exceeded_by_minutes = some 15 := by
  refine ⟨calculate_low_tier cfg d st h0 h1 h2, rfl, rfl, rfl,
    calculate_low_tier get_penalty_config 45 "standard" (by decide) (by decide) (by decide),
    ?_, rfl⟩
  simp only [apply_low_penalty_rule]
  rw [roundHalfUp2_eq_self _ 500 (by norm_num [get_penalty_config, PENALTY_AMOUNTS])]
  norm_num [get_penalty_config, PENALTY_AMOUNTS]

/-- C3 witness: the fixed-penalty theorem applied at the default config and
a delay of 45 minutes. -/
theorem C3_fixed_tier_witness :
    (0 ≤ (45 : Int) ∧ get_penalty_config.thresholds.no_penalty_max < (45 : Int) ∧
      (45 : Int) ≤ get_penalty_config.thresholds.low_penalty_max) ∧
    ((apply_low_penalty_rule get_penalty_config 45 "standard").rule_applied =
       "fixed_penalty_rule" ∧
     (apply_low_penalty_rule get_penalty_config 45 "standard").penalty_amount = 500) := by
  refine ⟨⟨by decide, by decide, by decide⟩, ?_, ?_⟩
  · exact (C3_fixed_tier get_penalty_config 45 "standard" (by decide) (by decide)
      (by decide)).2.2.1
  · exact (C3_fixed_tier get_penalty_config 45 "standard" (by decide) (by decide)
      (by decide)).2.2.2.2.2.1

/-- C4: under the default config, for every non-negative delay and in every
tier, the result of `calculate` has `penalty_amount` equal to
`calculation_breakdown.total` exactly. -/
theorem C4_amount_eq_breakdown_total (d : Int) (h0 : 0 ≤ d) :
    (calculate get_penalty_config (d : ℚ) "standard").map
      (fun r => decide (r.penalty_amount = r.calculation_breakdown.total)) = .ok true := by
  rw [calculate_intCast_nonneg get_penalty_config d "standard" h0]
  split_ifs with h1 h2
  · simp [Except.map, apply_no_penalty_rule]
  · simp only [Except.map, apply_low_penalty_rule, Except.ok.injEq, decide_eq_true_eq]
    rw [roundHalfUp2_eq_self _ 500 (by norm_num [get_penalty_config, PENALTY_AMOUNTS])]
  · simp only [Except.map, apply_high_penalty_rule, Except.ok.injEq, decide_eq_true_eq]
    rw [roundHalfUp2_eq_self _ (1000 + 25 * (d - get_penalty_config.thresholds.low_penalty_max))
        (by norm_num [get_penalty_config, PENALTY_AMOUNTS]),
      roundHalfEven2_eq_self _ (1000 + 25 * (d - get_penalty_config.thresholds.low_penalty_max))
        (by norm_num [get_penalty_config, PENALTY_AMOUNTS])]

/-- C4 witness: the invariant applied at a progressive-tier delay of 75
minutes. -/
theorem C4_amount_eq_breakdown_total_witness :
    0 ≤ (75 : Int) ∧
    (calculate get_penalty_config ((75 : Int) : ℚ) "standard").map
      (fun r => decide (r.penalty_amount = r.calculation_breakdown.total)) = .ok true :=
  ⟨by decide, C4_amount_eq_breakdown_total 75 (by decide)⟩

/-- C5 counterexample: the claim says every result carries a
`critical_delay` field (false in the lower tiers), but `calculate(15)` and
`calculate(45)` return dicts with no `critical_delay` key at all
(modelled as `none`, which differs from `some false`). -/
theorem C5_counterexample :
    (calculate get_penalty_config ((15 : Int) : ℚ) "standard").map
      CalculationResult.critical_delay = .ok none ∧
    (calculate get_penalty_config ((45 : Int) : ℚ) "standard").map
      CalculationResult.critical_delay = .ok none ∧
    (.ok none : Except String (Option Bool)) ≠ .ok (some false) := by
  rw [calculate_no_penalty_tier get_penalty_config 15 "standard" (by decide) (by decide),
    calculate_low_tier get_penalty_config 45 "standard" (by decide) (by decide) (by decide)]
  exact ⟨rfl, rfl, by simp⟩

/-- C5 (amended): only progressive-tier results carry a `critical_delay`
field; there it is true exactly when the delay exceeds 120 minutes,
independent of the configured thresholds; the no-penalty and
fixed-penalty results omit the field; `calculate(125)` yields
`critical_delay = true`. -/
theorem C5_critical_delay_amended (cfg : PenaltyConfig) (d : Int) (st : String) :
    (apply_no_penalty_rule cfg d st).critical_delay = none ∧
    (apply_low_penalty_rule cfg d st).critical_delay = none ∧
    ((apply_high_penalty_rule cfg d st).critical_delay = some true ↔ 120 < d) ∧
    calculate get_penalty_config ((125 : Int) : ℚ) "standard" =
      .ok (apply_high_penalty_rule get_penalty_config 125 "standard") ∧
    (apply_high_penalty_rule get_penalty_config 125 "standard").critical_delay = some true := by
  refine ⟨rfl, rfl, ?_,
    calculate_high_tier get_penalty_config 125 "standard" (by decide) (by decide) (by decide),
    by simp [apply_high_penalty_rule]⟩
  simp [apply_high_penalty_rule]

/-- C10: `calculate` accepts a non-integer numeric delay and truncates it
toward zero before tier selection, so a non-negative rational input is
classified exactly as its integer part (`truncateToInt`, which agrees
with the floor on non-negative inputs); any negative input is rejected
with the `ValueError` branch; in particular a delay of
`no_penalty_max + 0.9 = 30.9` lands in the no-penalty tier.  Non-numeric
inputs are outside the embedding (excluded by typing), and the rational
model covers exactly the finite float inputs. -/
theorem C10_truncation (cfg : PenaltyConfig) (q qneg : ℚ) (st : String)
    (h0 : 0 ≤ q) (hneg : qneg < 0) :
    calculate cfg q st = calculate cfg ((⌊q⌋ : Int) : ℚ) st ∧
    truncateToInt q = ⌊q⌋ ∧
    calculate cfg qneg st = .error "Invalid delay minutes" ∧
    calculate get_penalty_config (309/10 : ℚ) "standard" =
      .ok (apply_no_penalty_rule get_penalty_config 30 "standard") := by
  have htr : truncateToInt q = ⌊q⌋ := if_pos h0
  have hfl : (0 : Int) ≤ ⌊q⌋ := Int.floor_nonneg.2 h0
  refine ⟨?_, htr, ?_, ?_⟩
  · unfold calculate
    rw [if_neg (not_lt.2 h0), if_neg (not_lt.2 (by exact_mod_cast hfl)),
      truncateToInt_intCast, htr]
  · unfold calculate
    rw [if_pos hneg]
  · have h1 : ¬ ((309/10 : ℚ) < 0) := by norm_num
    have h2 : truncateToInt (309/10 : ℚ) = 30 := by
      unfold truncateToInt
      rw [if_pos (by norm_num), Int.floor_eq_iff]
      norm_num
    unfold calculate
    rw [if_neg h1, h2]
    norm_num [get_penalty_config, PENALTY_THRESHOLDS]

/-- C10 witness: the truncation theorem applied at the concrete inputs
`3.5` (truncates to 3) and `-1` (rejected). -/
theorem C10_truncation_witness :
    (0 ≤ (7/2 : ℚ) ∧ (-1 : ℚ) < 0) ∧
    (calculate get_penalty_config (7/2 : ℚ) "standard" =
       calculate get_penalty_config ((⌊(7/2 : ℚ)⌋ : Int) : ℚ) "standard" ∧
     truncateToInt (7/2 : ℚ) = ⌊(7/2 : ℚ)⌋ ∧
     calculate get_penalty_config (-1 : ℚ) "standard" = .error "Invalid delay minutes" ∧
     calculate get_penalty_config (309/10 : ℚ) "standard" =
       .ok (apply_no_penalty_rule get_penalty_config 30 "standard")) :=
  ⟨⟨by norm_num, by norm_num⟩,
    C10_truncation get_penalty_config (7/2) (-1) "standard" (by norm_num) (by norm_num)⟩

lemma log_decision_length_le {α : Type} (log : List α) (e : α) :
    (log_decision log e).length ≤ 1000 := by
  unfold log_decision
  split
  · next h =>
    simp only [List.length_drop]
    omega
  · next h => omega

lemma log_decision_small {α : Type} (xs : List α) (y : α)
    (h : xs.length + 1 ≤ 1000) : log_decision xs y = xs ++ [y] := by
  unfold log_decision
  rw [if_neg]
  simp only [List.length_append, List.length_cons, List.length_nil, not_lt]
  omega

lemma foldl_log_decision_small {α : Type} :
    ∀ (ys xs : List α), xs.length + ys.length ≤ 1000 →
      List.foldl log_decision xs ys = xs ++ ys
  | [], xs, _ => by simp
  | y :: ys, xs, h => by
    rw [List.foldl_cons, log_decision_small xs y (by simp at h; omega),
      foldl_log_decision_small ys (xs ++ [y]) (by simp at h ⊢; omega)]
    simp

lemma decision_logs_after_1001 :
    decision_logs_after 1001 = List.map Nat.succ (List.range 1000) := by
  unfold decision_logs_after
  rw [List.range_succ, List.foldl_append,
    foldl_log_decision_small (List.range 1000) [] (by simp)]
  simp only [List.nil_append, List.foldl_cons, List.foldl_nil]
  unfold log_decision
  rw [if_pos (by simp)]
  have h1 : (List.range 1000 ++ [1000]).length - 1000 = 1 := by simp
  rw [h1, ← List.range_succ, List.range_succ_eq_map]
  simp

/-- C6: the Decision Log is bounded: after any append by `_log_decision`
the log holds at most 1000 entries, and after 1001 appends of distinct
entries (numbered 0..1000) the log has exactly 1000 entries, the
first-appended entry 0 has been evicted, and the most recent entry 1000
is present. -/
theorem C6_decision_log_bounded (log : List Nat) (e : Nat) :
    (log_decision log e).length ≤ 1000 ∧
    (decision_logs_after 1001).length = 1000 ∧
    0 ∉ decision_logs_after 1001 ∧
    1000 ∈ decision_logs_after 1001 := by
  refine ⟨log_decision_length_le log e, ?_, ?_, ?_⟩
  · rw [decision_logs_after_1001]
    simp
  · rw [decision_logs_after_1001]
    simp only [List.mem_map, List.mem_range]
    rintro ⟨a, -, ha⟩
    exact Nat.succ_ne_zero a ha
  · rw [decision_logs_after_1001]
    simp only [List.mem_map, List.mem_range]
    exact ⟨999, by omega, rfl⟩

/-- C7: for every context, `generate_explanation` returns a record rather
than raising (its return type is total); whenever the internal generation
step fails with message `e`, the result is the fallback record: its
`confidence_score` is 0.0, its `error` field embeds the error
description, and its text is the fixed degraded message. -/
theorem C7_generation_fallback (model e : String) :
    generate_explanation model (.error e) =
      { explanation := "Unable to generate AI explanation at this time."
        confidence_score := 0
        model_used := model
        tokens_used := none
        error := some e } ∧
    (generate_explanation model (.error e)).confidence_score = 0 ∧
    (generate_explanation model (.error e)).error = some e :=
  ⟨rfl, rfl, rfl⟩

/-- C7 witness: the fallback record at a concrete failing generation. -/
theorem C7_generation_fallback_witness :
    (generate_explanation "claude-3-haiku" (.error "boom")).confidence_score = 0 ∧
    (generate_explanation "claude-3-haiku" (.error "boom")).error = some "boom" :=
  ⟨(C7_generation_fallback "claude-3-haiku" "boom").2.1,
   (C7_generation_fallback "claude-3-haiku" "boom").2.2⟩

/-- C8: `send_penalty_notice` treats the two channels independently.  For
a recipient with only an email address, `notifications.sms` is false and
no SMS transport call is made.  For a recipient with both contacts (a
valid phone, an enabled SMS service), the SMS channel is attempted and
succeeds whatever the email channel does — in particular a failing email
send (invalid address) neither blocks the SMS attempt nor its success —
and the email channel is attempted whenever its own guard holds. -/
theorem C8_channel_independence (es : EmailService) (ss : SMSService)
    (cr : CalculationResult) (a p : String)
    (hss : ss.enabled = true) (hp : 10 ≤ p.length) :
    (send_penalty_notice es ss cr
      { name := none, email := some a, phone := none }).1.notifications.sms = false ∧
    hasSMSCall (send_penalty_notice es ss cr
      { name := none, email := some a, phone := none }).2.2.2 = false ∧
    (send_penalty_notice es ss cr
      { name := none, email := some a, phone := some p }).1.notifications.sms = true ∧
    hasSMSCall (send_penalty_notice es ss cr
      { name := none, email := some a, phone := some p }).2.2.2 = true ∧
    (a ≠ "" ∧ es.enabled = true →
      hasEmailCall (send_penalty_notice es ss cr
        { name := none, email := some a, phone := some p }).2.2.2 = true) := by
  have hpne : p ≠ "" := by
    intro hE
    rw [hE] at hp
    simp at hp
  have hlen : ¬ (p.length < 10) := not_lt.2 hp
  refine ⟨?_, ?_, ?_, ?_, ?_⟩
  · simp [send_penalty_notice]
  · by_cases hc : a ≠ "" ∧ es.enabled = true <;>
      simp [send_penalty_notice, hasSMSCall, hc]
  · simp [send_penalty_notice, sms_send_notice, hpne, hss, hlen]
  · by_cases hc : a ≠ "" ∧ es.enabled = true <;>
      simp [send_penalty_notice, hasSMSCall, hc, hpne, hss]
  · intro hc
    simp [send_penalty_notice, hasEmailCall, hc, hpne, hss]

/-- C8 witness: both services enabled and empty histories, an invalid
email address (`"bad"`, no `@`) and a valid ten-digit phone.  The SMS
channel succeeds even though the email send fails. -/
theorem C8_channel_independence_witness :
    ((⟨true, []⟩ : SMSService).enabled = true ∧ 10 ≤ ("9876543210" : String).length) ∧
    ((send_penalty_notice ⟨true, []⟩ ⟨true, []⟩
        (apply_no_penalty_rule get_penalty_config 10 "standard")
        { name := none, email := some "bad", phone := none }).1.notifications.sms = false ∧
     hasSMSCall (send_penalty_notice ⟨true, []⟩ ⟨true, []⟩
        (apply_no_penalty_rule get_penalty_config 10 "standard")
        { name := none, email := some "bad", phone := none }).2.2.2 = false ∧
     (send_penalty_notice ⟨true, []⟩ ⟨true, []⟩
        (apply_no_penalty_rule get_penalty_config 10 "standard")
        { name := none, email := some "bad", phone := some "9876543210" }).1.notifications.sms = true ∧
     hasSMSCall (send_penalty_notice ⟨true, []⟩ ⟨true, []⟩
        (apply_no_penalty_rule get_penalty_config 10 "standard")
        { name := none, email := some "bad", phone := some "9876543210" }).2.2.2 = true ∧
     ("bad" ≠ "" ∧ (⟨true, []⟩ : EmailService).enabled = true →
       hasEmailCall (send_penalty_notice ⟨true, []⟩ ⟨true, []⟩
        (apply_no_penalty_rule get_penalty_config 10 "standard")
        { name := none, email := some "bad", phone := some "9876543210" }).2.2.2 = true)) ∧
    (send_penalty_notice ⟨true, []⟩ ⟨true, []⟩
        (apply_no_penalty_rule get_penalty_config 10 "standard")
        { name := none, email := some "bad", phone := some "9876543210" }).1.notifications.email = false :=
  ⟨⟨rfl, by decide⟩,
   C8_channel_independence ⟨true, []⟩ ⟨true, []⟩
     (apply_no_penalty_rule get_penalty_config 10 "standard") "bad" "9876543210"
     rfl (by decide),
   by
     have hbad : ("bad" : String).data.contains '@' = false := by decide
     simp [send_penalty_notice, email_send_notice, hbad]⟩

/-- C9 counterexample: with a negative `high_penalty_base` (an amount the
claim says must be reported as not positive), `validate_rules` still
returns `rules_valid = true` and an empty issue list. -/
theorem C9_counterexample :
    (validate_rules config_negative_base).rules_valid = true ∧
    (validate_rules config_negative_base).issues = [] ∧
    config_negative_base.amounts.high_penalty_base < 0 := by
  refine ⟨?_, ?_, by norm_num [config_negative_base]⟩ <;>
    norm_num [validate_rules, check_threshold, List.foldl_cons, List.foldl_nil,
      config_negative_base, PENALTY_THRESHOLDS]

/-- C9 (amended): `validate_rules` returns, without raising and without
mutating the config, a structured result whose `rules_valid` is false
exactly when some configured threshold is negative or `fixed_penalty` or
`variable_rate` is not positive, and whose issue list is nonempty in
exactly those cases; `high_penalty_base` is echoed in the report but
never validated. -/
theorem C9_validate_rules_amended (cfg : PenaltyConfig) :
    ((validate_rules cfg).rules_valid = false ↔
      (cfg.thresholds.no_penalty_max < 0 ∨ cfg.thresholds.low_penalty_min < 0 ∨
       cfg.thresholds.low_penalty_max < 0 ∨ cfg.thresholds.high_penalty_min < 0 ∨
       cfg.amounts.fixed_penalty ≤ 0 ∨ cfg.amounts.variable_rate ≤ 0)) ∧
    ((validate_rules cfg).issues = [] ↔ (validate_rules cfg).rules_valid = true) := by
  simp only [validate_rules, check_threshold, List.foldl_cons, List.foldl_nil]
  split_ifs <;> simp_all
